import Mathlib

/-!
# Verification of the 360° feedback application core

Shallow embedding of the logic of `src/App.tsx` (a browser form application
that collects and summarizes 360° feedback about a candidate).  Strings are
modelled by Lean `String` (lists of unicode code points), JS numbers by `ℚ`,
JS `undefined` by `Option`, and the external AI-agent call by an explicit
`Except` parameter.  Every definition is translated from the TypeScript
source; the only exception is the token *decoder*, which the source never
implements and which is therefore modelled from the specification (see
`decodeReviewerId`).
-/

/-! ## JS string primitives used by the source -/

/-- JS whitespace test (restricted to the ASCII whitespace actually relevant
to the embedded strings). -/
def isJsWs (c : Char) : Bool :=
  c = ' ' || c = '\n' || c = '\t' || c = '\r'

/-- Model of `String.prototype.trim`: drop leading and trailing whitespace. -/
def jsTrim (s : String) : String :=
  String.mk (((s.data.dropWhile isJsWs).reverse.dropWhile isJsWs).reverse)

/-- Split a character list at every occurrence of `sep`
(model of `String.prototype.split` with a one-character separator). -/
def splitOnChar (sep : Char) : List Char → List (List Char)
  | [] => [[]]
  | c :: rest =>
    match splitOnChar sep rest with
    | [] => if c = sep then [[], []] else [[c]]
    | h :: t => if c = sep then [] :: h :: t else (c :: h) :: t

/-- Model of `s.split(sep)` for a one-character separator. -/
def jsSplit (s : String) (sep : Char) : List String :=
  (splitOnChar sep s.data).map String.mk

/-- Model of `Array.prototype.join(sep)`. -/
def jsJoin (l : List String) (sep : String) : String :=
  match l with
  | [] => ""
  | [a] => a
  | a :: rest => a ++ sep ++ jsJoin rest sep

/-- `true` iff `pat` occurs as a contiguous run inside `hay`
(model of `String.prototype.includes` at the character-list level). -/
def infixAt : List Char → List Char → Bool
  | hay, pat =>
    pat.isPrefixOf hay ||
      (match hay with
       | [] => false
       | _ :: t => infixAt t pat)

/-- Model of `s.includes(pat)`. -/
def strIncludes (s pat : String) : Bool :=
  infixAt s.data pat.data

/-- Model of `String.prototype.toLowerCase` (ASCII range, which is all the
classifier patterns need). -/
def jsToLower (s : String) : String :=
  String.mk (s.data.map Char.toLower)

/-- Model of first-occurrence `Array.prototype.indexOf` (`-1` when absent). -/
def jsIndexOfAux : List String → String → Nat → Int
  | [], _, _ => -1
  | a :: t, x, i => if a = x then Int.ofNat i else jsIndexOfAux t x (i + 1)

/-- Model of `arr.indexOf(x)`. -/
def jsIndexOf (l : List String) (x : String) : Int :=
  jsIndexOfAux l x 0

/-- Model of JS array indexing `arr[i]` with a possibly negative index
(`arr[-1]` is `undefined`). -/
def jsArrGet (l : List String) (i : Int) : Option String :=
  if i < 0 then none else l.get? i.toNat

/-- JS template-literal interpolation of a possibly-`undefined` string:
`undefined` prints as the literal text `"undefined"`. -/
def jsTemplate (o : Option String) : String :=
  match o with
  | none => "undefined"
  | some t => t

/-- React rendering of a possibly-`undefined` string: `undefined` renders
as nothing. -/
def reactRender (o : Option String) : String :=
  match o with
  | none => ""
  | some t => t

/-- JS `x || 0` on a possibly-absent number. -/
def jsNumOr0 (o : Option ℚ) : ℚ := o.getD 0

/-- Model of `Number.prototype.toFixed(0)`: round to the nearest integer,
with ties going to the larger integer. -/
def jsToFixed0 (q : ℚ) : ℤ := ⌊q + 1 / 2⌋

/-- Printing of a JS number (integer-valued rationals print like JS
integers; the claims never exercise non-integer printing). -/
def jsNumToString (q : ℚ) : String :=
  if q.den = 1 then toString q.num else toString q.num ++ "/" ++ toString q.den

/-! ## The identity encoder (`btoa`) -/

/-- The base64 alphabet used by `btoa`. -/
def b64Alphabet : List Char :=
  "ABCDEFGHIJKLMNOPQRSTUVWXYZabcdefghijklmnopqrstuvwxyz0123456789+/".data

/-- The base64 digit for a sextet. -/
def b64Char (n : Nat) : Char := b64Alphabet.getD n '='

def b64IndexAux : List Char → Char → Nat
  | [], _ => 0
  | a :: t, c => if a = c then 0 else b64IndexAux t c + 1

/-- Position of a character in the base64 alphabet. -/
def b64Index (c : Char) : Nat := b64IndexAux b64Alphabet c

/-- Base64 encoding of a byte list (model of `btoa`, whose input codepoints
must all be `< 256`). -/
def b64EncodeBytes : List Nat → List Char
  | [] => []
  | [a] => [b64Char (a / 4), b64Char (a % 4 * 16), '=', '=']
  | [a, b] => [b64Char (a / 4), b64Char (a % 4 * 16 + b / 16), b64Char (b % 16 * 4), '=']
  | a :: b :: c :: rest =>
    b64Char (a / 4) :: b64Char (a % 4 * 16 + b / 16) ::
      b64Char (b % 16 * 4 + c / 64) :: b64Char (c % 64) :: b64EncodeBytes rest

/-- Base64 decoding back to a byte list (model of `atob`). -/
def b64DecodeChars : List Char → List Nat
  | w :: x :: y :: z :: rest =>
    if y = '=' then [b64Index w * 4 + b64Index x / 16]
    else if z = '=' then
      [b64Index w * 4 + b64Index x / 16, b64Index x % 16 * 16 + b64Index y / 4]
    else
      (b64Index w * 4 + b64Index x / 16) :: (b64Index x % 16 * 16 + b64Index y / 4) ::
        (b64Index y % 4 * 64 + b64Index z) :: b64DecodeChars rest
  | _ => []

/-- The reviewer token produced at assessment creation:
`btoa(`${r.email}-${assessmentId}`)` (App.tsx, `handleSubmit`). -/
def encodeReviewerId (email assessmentId : String) : String :=
  String.mk (b64EncodeBytes ((email ++ "-" ++ assessmentId).data.map Char.toNat))

/-- Modelled from the spec: the source never implements
`decode(token) -> (email, assessmentId)`; §4.1 requires a decoder that
reconstructs the pair from a token produced by `encode`.  The only
reconstruction compatible with the source's encoder (base64 of
`email ++ "-" ++ id`) is to base64-decode and split at the *last*
occurrence of the delimiter `'-'`. -/
def decodeReviewerId (token : String) : String × String :=
  let chars := (b64DecodeChars token.data).map Char.ofNat
  let rev := chars.reverse
  (String.mk ((rev.dropWhile (fun c => c ≠ '-')).tail.reverse),
   String.mk ((rev.takeWhile (fun c => c ≠ '-')).reverse))

/-! ## Data model (the `interface` declarations of App.tsx) -/

/-- `interface CriterionScore { score: number; feedback: string }`. -/
structure CriterionScore where
  score : ℚ
  feedback : String
deriving DecidableEq

/-- The `consensus_areas` object of the externally supplied summary. -/
structure ConsensusAreas where
  strong_agreement : Option String
  areas_of_disagreement : Option String
deriving DecidableEq

/-- The `feedback_summary` projection of the agent's analysis payload.
Every field may be absent (`undefined` in JS); the `criterion_breakdown`
JSON object is modelled as an association list. -/
structure FeedbackSummary where
  overall_score : Option ℚ := none
  total_responses : Option ℚ := none
  completion_percentage : Option ℚ := none
  recommendation : Option String := none
  recommendation_rationale : Option String := none
  key_strengths : Option (List String) := none
  key_concerns : Option (List String) := none
  criterion_breakdown : Option (List (String × CriterionScore)) := none
  consensus_areas : Option ConsensusAreas := none
  executive_summary : Option String := none
deriving DecidableEq

/-- The opaque analysis payload attached to a request (`feedback: any`);
only the `feedback_summary` projection is consumed by the claims. -/
structure AgentPayload where
  feedback_summary : Option FeedbackSummary := none
deriving DecidableEq

/-- The all-absent summary (`{}` after `|| {}`). -/
def emptySummary : FeedbackSummary := {}

/-- The five per-criterion integer scores of a submission. -/
structure Scores where
  leadership_vision : Nat
  communication_influence : Nat
  experience_expertise : Nat
  cultural_fit : Nat
  team_management : Nat
deriving DecidableEq

/-- The five per-criterion free-text comments of a submission. -/
structure TextResponses where
  leadership_vision : String
  communication_influence : String
  experience_expertise : String
  cultural_fit : String
  team_management : String
deriving DecidableEq

/-- `interface FeedbackSubmission`. -/
structure FeedbackSubmission where
  reviewerEmail : String
  reviewerName : String
  submissionTimestamp : String
  scores : Scores
  textResponses : TextResponses
deriving DecidableEq

/-- One entry of `formLinks`. -/
structure FormLink where
  email : String
  link : String
  status : String
  reviewerName : String
deriving DecidableEq, Inhabited

/-- `status: 'draft' | 'sent' | 'completed'`. -/
inductive RequestStatus where
  | draft
  | sent
  | completed
deriving DecidableEq

/-- `interface FeedbackRequest` (the assessment aggregate). -/
structure FeedbackRequest where
  id : String
  candidateName : String
  candidateRole : String
  reviewerEmails : List String
  reviewerNames : List String
  status : RequestStatus
  createdAt : String
  formLinks : List FormLink
  feedback : Option AgentPayload
  responses : List FeedbackSubmission
deriving DecidableEq

/-- One parsed roster entry (`{ name, email }`). -/
structure Reviewer where
  name : String
  email : String
deriving DecidableEq, Inhabited

/-! ## Assessment creation (`handleSubmit`) -/

/-- Parsing of the reviewer textarea: one `Name|email` entry per line; an
entry is kept only when the part after `|` exists and contains `'@'`
(`.filter(r => r.email && r.email.includes('@'))`). -/
def parseReviewers (reviewerData : String) : List Reviewer :=
  (jsSplit reviewerData '\n').filterMap fun line =>
    let parts := (jsSplit line '|').map jsTrim
    match parts.get? 1 with
    | none => none
    | some e => if strIncludes e "@" then some ⟨parts.getD 0 "", e⟩ else none

/-- The shareable form links generated at creation: one per reviewer, the
token from `encodeReviewerId`, the email also carried in cleartext. -/
def mkFormLinks (reviewers : List Reviewer) (assessmentId origin : String) : List FormLink :=
  reviewers.map fun r =>
    { email := r.email
      reviewerName := r.name
      link := origin ++ "?reviewerId=" ++ encodeReviewerId r.email assessmentId ++
        "&email=" ++ r.email ++ "&assessmentId=" ++ assessmentId
      status := "sent" }

/-- Resulting view state of one `handleSubmit` run. -/
structure CreateOutcome where
  requests : List FeedbackRequest
  selected : Option FeedbackRequest
  error : Option String
  agentCalled : Bool
deriving DecidableEq

/-- Model of `handleSubmit`: validation, then the agent call (parameterised
by its parsed outcome `agentResult`), then link generation and the new
aggregate.  `assessmentId` stands for `Date.now().toString()` and
`createdAt` for `new Date().toISOString()`. -/
def createStep (requests : List FeedbackRequest)
    (candidateName candidateRole reviewerData : String)
    (agentResult : Except String AgentPayload)
    (assessmentId createdAt origin : String) : CreateOutcome :=
  if jsTrim candidateName = "" ∨ jsTrim candidateRole = "" ∨ jsTrim reviewerData = "" then
    { requests := requests, selected := none,
      error := some "Please fill in all fields", agentCalled := false }
  else
    let reviewerList := parseReviewers reviewerData
    if reviewerList.isEmpty then
      { requests := requests, selected := none,
        error := some "Please enter at least one valid reviewer with email", agentCalled := false }
    else
      match agentResult with
      | Except.error msg =>
        { requests := requests, selected := none,
          error := some (if msg = "" then "Failed to process request" else msg),
          agentCalled := true }
      | Except.ok payload =>
        let newRequest : FeedbackRequest :=
          { id := assessmentId
            candidateName := candidateName
            candidateRole := candidateRole
            reviewerEmails := reviewerList.map Reviewer.email
            reviewerNames := reviewerList.map Reviewer.name
            status := RequestStatus.sent
            createdAt := createdAt
            formLinks := mkFormLinks reviewerList assessmentId origin
            feedback := some payload
            responses := [] }
        { requests := requests ++ [newRequest], selected := some newRequest,
          error := none, agentCalled := true }

/-! ## Feedback submission (`handleFeedbackSubmit`, `FeedbackFormView`) -/

/-- The `updatedRequest` construction of `handleFeedbackSubmit`: a new
aggregate value whose `responses` are extended by one element. -/
def appendSubmission (r : FeedbackRequest) (submission : FeedbackSubmission) : FeedbackRequest :=
  { r with responses := r.responses ++ [submission] }

/-- Resulting view state of one `handleFeedbackSubmit` run. -/
structure FeedbackOutcome where
  requests : List FeedbackRequest
  selected : Option FeedbackRequest
  success : Option String
  error : Option String
deriving DecidableEq

/-- Model of `handleFeedbackSubmit`: the append and the success state are
applied first; only then is the agent notified (outcome parameterised by
`agentResult`), whose failure merely sets the error message. -/
def handleFeedbackSubmitStep (requests : List FeedbackRequest)
    (selectedRequest : Option FeedbackRequest)
    (submission : FeedbackSubmission)
    (agentResult : Except String Unit) : FeedbackOutcome :=
  match selectedRequest with
  | none => { requests := requests, selected := none, success := none, error := none }
  | some sel =>
    let updatedRequest := appendSubmission sel submission
    let newRequests := requests.map fun r => if r.id = sel.id then updatedRequest else r
    match agentResult with
    | Except.ok _ =>
      { requests := newRequests, selected := some updatedRequest,
        success := some "Thank you! Your feedback has been submitted.", error := none }
    | Except.error msg =>
      { requests := newRequests, selected := some updatedRequest,
        success := some "Thank you! Your feedback has been submitted.",
        error := some (if msg = "" then "Failed to submit feedback" else msg) }

/-- The roster-name resolution of `FeedbackFormView.handleSubmit`:
`request.reviewerNames[request.reviewerEmails.indexOf(reviewerEmail)] || reviewerEmail`. -/
def lookupReviewerName (request : FeedbackRequest) (reviewerEmail : String) : String :=
  match jsArrGet request.reviewerNames (jsIndexOf request.reviewerEmails reviewerEmail) with
  | none => reviewerEmail
  | some n => if n = "" then reviewerEmail else n

/-- The submission record built by `FeedbackFormView.handleSubmit`
(`ts` stands for `new Date().toISOString()`). -/
def mkSubmission (request : FeedbackRequest) (reviewerEmail ts : String)
    (scores : Scores) (textResponses : TextResponses) : FeedbackSubmission :=
  { reviewerEmail := reviewerEmail
    reviewerName := lookupReviewerName request reviewerEmail
    submissionTimestamp := ts
    scores := scores
    textResponses := textResponses }

/-! ## Recommendation classification (`getRecommendationColor`) -/

/-- `getRecommendationColor` of App.tsx: case-insensitive substring tests
in source order over `recommendation?.toLowerCase() || ''`. -/
def getRecommendationColor (recommendation : Option String) : String :=
  let recLower :=
    match recommendation with
    | none => ""
    | some s => jsToLower s
  if strIncludes recLower "strong hire" then "bg-gradient-to-br from-green-50 to-emerald-50"
  else if strIncludes recLower "hire" then "bg-gradient-to-br from-blue-50 to-cyan-50"
  else if strIncludes recLower "consider" then "bg-gradient-to-br from-amber-50 to-yellow-50"
  else if strIncludes recLower "caution" then "bg-gradient-to-br from-orange-50 to-red-50"
  else if strIncludes recLower "do not" then "bg-gradient-to-br from-red-50 to-rose-50"
  else "bg-gradient-to-br from-slate-50 to-slate-100"

/-- The spec's abstract visual classifications. -/
inductive RecClass where
  | strongPositive
  | positive
  | neutralCaution
  | negativeLean
  | strongNegative
  | neutralUnknown
deriving DecidableEq

/-- Spec-side definition (§4.4): case-insensitive substring classification
over the fixed, ordered priority list, first match winning. -/
def classifyRecommendation (recommendation : Option String) : RecClass :=
  let s := jsToLower (recommendation.getD "")
  if strIncludes s "strong hire" then RecClass.strongPositive
  else if strIncludes s "hire" then RecClass.positive
  else if strIncludes s "consider" then RecClass.neutralCaution
  else if strIncludes s "caution" then RecClass.negativeLean
  else if strIncludes s "do not" then RecClass.strongNegative
  else RecClass.neutralUnknown

/-- The color string the source emits for each abstract classification. -/
def recClassColor : RecClass → String
  | RecClass.strongPositive => "bg-gradient-to-br from-green-50 to-emerald-50"
  | RecClass.positive => "bg-gradient-to-br from-blue-50 to-cyan-50"
  | RecClass.neutralCaution => "bg-gradient-to-br from-amber-50 to-yellow-50"
  | RecClass.negativeLean => "bg-gradient-to-br from-orange-50 to-red-50"
  | RecClass.strongNegative => "bg-gradient-to-br from-red-50 to-rose-50"
  | RecClass.neutralUnknown => "bg-gradient-to-br from-slate-50 to-slate-100"

/-! ## The summary view (`SummaryView`) -/

/-- `const summary = feedback.feedback_summary || {}` (the `feedback` prop
is the request's payload). -/
def summaryOfPayload (p : AgentPayload) : FeedbackSummary :=
  p.feedback_summary.getD emptySummary

/-- The five fixed criteria (`criteriaList` of `SummaryView`). -/
def criteriaList : List (String × String) :=
  [("leadership_vision", "Leadership & Vision"),
   ("communication_influence", "Communication & Influence"),
   ("experience_expertise", "Experience & Expertise"),
   ("cultural_fit", "Cultural Fit"),
   ("team_management", "Team Management")]

/-- `const overallScore = summary.overall_score || 0`. -/
def summaryOverallScore (s : FeedbackSummary) : ℚ := jsNumOr0 s.overall_score

/-- The displayed percentage number: `(overallScore * 20).toFixed(0)`. -/
def summaryOverallPct (s : FeedbackSummary) : ℤ := jsToFixed0 (summaryOverallScore s * 20)

/-- The displayed percentage text `{(overallScore * 20).toFixed(0)}%`. -/
def summaryOverallPctText (s : FeedbackSummary) : String :=
  toString (summaryOverallPct s) ++ "%"

/-- A criterion row's data:
`criterionBreakdown[criterion.key] || { score: 0, feedback: '' }` with
`criterionBreakdown = summary.criterion_breakdown || {}`. -/
def summaryCriterionData (s : FeedbackSummary) (key : String) : CriterionScore :=
  ((s.criterion_breakdown.getD []).lookup key).getD ⟨0, ""⟩

/-- The rendered recommendation text `{summary.recommendation}`. -/
def summaryRecommendationText (s : FeedbackSummary) : String :=
  reactRender s.recommendation

/-- The rendered rationale text `{summary.recommendation_rationale}`. -/
def summaryRationaleText (s : FeedbackSummary) : String :=
  reactRender s.recommendation_rationale

/-- The strengths rendered in the summary view:
`(summary.key_strengths || []).slice(0, 3)`. -/
def summaryStrengthsDisplayed (s : FeedbackSummary) : List String :=
  (s.key_strengths.getD []).take 3

/-- The concerns rendered in the summary view:
`(summary.key_concerns || []).slice(0, 3)`. -/
def summaryConcernsDisplayed (s : FeedbackSummary) : List String :=
  (s.key_concerns.getD []).take 3

/-! ## The report exporter (`generatePDFContent`) -/

/-- `const feedback = request.feedback?.feedback_summary || {}`. -/
def requestSummary (r : FeedbackRequest) : FeedbackSummary :=
  (r.feedback.bind AgentPayload.feedback_summary).getD emptySummary

/-- `Overall Score: ${((feedback.overall_score || 0) * 20).toFixed(0)}%`. -/
def pdfOverallPct (s : FeedbackSummary) : ℤ := jsToFixed0 (jsNumOr0 s.overall_score * 20)

/-- `Recommendation: ${feedback.recommendation}`. -/
def pdfRecommendationLine (s : FeedbackSummary) : String :=
  "Recommendation: " ++ jsTemplate s.recommendation

/-- `Rationale: ${feedback.recommendation_rationale}`. -/
def pdfRationaleLine (s : FeedbackSummary) : String :=
  "Rationale: " ++ jsTemplate s.recommendation_rationale

/-- `(feedback.key_strengths || []).map(s => `• ${s}`).join('\n')`. -/
def pdfStrengthsSection (s : FeedbackSummary) : String :=
  jsJoin ((s.key_strengths.getD []).map fun x => "• " ++ x) "\n"

/-- `(feedback.key_concerns || []).map(c => `• ${c}`).join('\n')`. -/
def pdfConcernsSection (s : FeedbackSummary) : String :=
  jsJoin ((s.key_concerns.getD []).map fun x => "• " ++ x) "\n"

/-- `Object.entries(feedback.criterion_breakdown || {}).map(([key, data]) =>
`${key}: ${data.score}/5 - ${data.feedback}`).join('\n')`. -/
def pdfCriterionSection (s : FeedbackSummary) : String :=
  jsJoin ((s.criterion_breakdown.getD []).map fun p =>
    p.1 ++ ": " ++ jsNumToString p.2.score ++ "/5 - " ++ p.2.feedback) "\n"

/-- `Strong Agreement: ${feedback.consensus_areas?.strong_agreement}`. -/
def pdfConsensusStrongLine (s : FeedbackSummary) : String :=
  "Strong Agreement: " ++ jsTemplate (s.consensus_areas.bind ConsensusAreas.strong_agreement)

/-- `Areas of Disagreement: ${feedback.consensus_areas?.areas_of_disagreement}`. -/
def pdfDisagreementLine (s : FeedbackSummary) : String :=
  "Areas of Disagreement: " ++
    jsTemplate (s.consensus_areas.bind ConsensusAreas.areas_of_disagreement)

/-- `${feedback.executive_summary}`. -/
def pdfExecSection (s : FeedbackSummary) : String :=
  jsTemplate s.executive_summary

/-- The template text from the report header up to and including the
`KEY STRENGTHS` section header (`fmtDate` stands for the locale-dependent
`new Date(...).toLocaleDateString()`). -/
def pdfPre (fmtDate : String → String) (r : FeedbackRequest) (fb : FeedbackSummary) : String :=
  "\nFEEDBACK ASSESSMENT REPORT\n==========================\n\nCandidate: " ++
    (r.candidateName ++ ("\nPosition: " ++ (r.candidateRole ++ ("\nAssessment Date: " ++
    (fmtDate r.createdAt ++
    ("\n\nOVERALL SCORE\n=============\nOverall Score: " ++ (toString (pdfOverallPct fb) ++
    ("%\nTotal Responses: " ++ (jsNumToString (jsNumOr0 fb.total_responses) ++
    ("\nCompletion: " ++ (jsNumToString (jsNumOr0 fb.completion_percentage) ++
    ("%\n\nRECOMMENDATION\n==============\n" ++ (pdfRecommendationLine fb ++ ("\n" ++
    (pdfRationaleLine fb ++ "\n\nKEY STRENGTHS\n=============\n")))))))))))))))

/-- The template text between the strengths and the concerns sections. -/
def pdfMid : String := "\n\nKEY CONCERNS\n============\n"

/-- The template text from after the concerns section to the end of the
template (including the trailing indentation the final `.trim()` removes). -/
def pdfPost (fb : FeedbackSummary) : String :=
  "\n\nCRITERION BREAKDOWN\n===================\n" ++ (pdfCriterionSection fb ++
    ("\n\nCONSENSUS AREAS\n===============\n" ++ (pdfConsensusStrongLine fb ++ ("\n" ++
    (pdfDisagreementLine fb ++ ("\n\nEXECUTIVE SUMMARY\n=================\n" ++
    (pdfExecSection fb ++ "\n  ")))))))

/-- `generatePDFContent`: the full plain-text report, `.trim()`med. -/
def generatePDFContent (fmtDate : String → String) (request : FeedbackRequest) : String :=
  let fb := requestSummary request
  jsTrim (pdfPre fmtDate request fb ++ pdfStrengthsSection fb ++ pdfMid ++
    pdfConcernsSection fb ++ pdfPost fb)

/-! ## Concrete fixtures used to evaluate the model -/

/-- A created assessment with a one-entry roster. -/
def rosterRequest : FeedbackRequest :=
  { id := "1760000000000"
    candidateName := "Sarah Johnson"
    candidateRole := "Eng Manager"
    reviewerEmails := ["john@x.com"]
    reviewerNames := ["John"]
    status := RequestStatus.sent
    createdAt := "2026-01-01T00:00:00.000Z"
    formLinks := []
    feedback := none
    responses := [] }

/-- All-4 scores. -/
def scoresAll4 : Scores := ⟨4, 4, 4, 4, 4⟩

/-- Empty comments. -/
def textsEmpty : TextResponses := ⟨"", "", "", "", ""⟩

/-- A submission by an email that is not on `rosterRequest`'s roster. -/
def outsiderSubmission : FeedbackSubmission :=
  mkSubmission rosterRequest "mallory@evil.com" "2026-01-02T00:00:00.000Z" scoresAll4 textsEmpty

/-- `rosterRequest` with an attached analysis payload whose summary is
entirely absent. -/
def emptyFeedbackRequest : FeedbackRequest :=
  { rosterRequest with feedback := some {} }

/-- A summary carrying only `overall_score = 3.5`. -/
def scoreSummary : FeedbackSummary := { overall_score := some (7 / 2) }

/-- A summary carrying one strength and one concern. -/
def listsSummary : FeedbackSummary :=
  { key_strengths := some ["Leads with clarity"]
    key_concerns := some ["Limited delegation"] }

/-- `rosterRequest` carrying `listsSummary`. -/
def listsFeedbackRequest : FeedbackRequest :=
  { rosterRequest with feedback := some { feedback_summary := some listsSummary } }

/-! ## Helper lemmas: base64 roundtrip -/

theorem b64Index_b64Char : ∀ n < 64, b64Index (b64Char n) = n := by decide

theorem b64Char_ne_pad : ∀ n < 64, b64Char n ≠ '=' := by decide

theorem b64DecodeChars_b64EncodeBytes :
    ∀ bs : List Nat, (∀ b ∈ bs, b < 256) → b64DecodeChars (b64EncodeBytes bs) = bs
  | [], _ => rfl
  | [a], h => by
    have ha : a < 256 := h a (by simp)
    have e1 := b64Index_b64Char (a / 4) (by omega)
    have e2 := b64Index_b64Char (a % 4 * 16) (by omega)
    have r1 : a / 4 * 4 + a % 4 * 16 / 16 = a := by omega
    simp only [b64EncodeBytes, b64DecodeChars, if_true, e1, e2, r1]
  | [a, b], h => by
    have ha : a < 256 := h a (by simp)
    have hb : b < 256 := h b (by simp)
    have e1 := b64Index_b64Char (a / 4) (by omega)
    have e2 := b64Index_b64Char (a % 4 * 16 + b / 16) (by omega)
    have e3 := b64Index_b64Char (b % 16 * 4) (by omega)
    have n3 := b64Char_ne_pad (b % 16 * 4) (by omega)
    have r1 : a / 4 * 4 + (a % 4 * 16 + b / 16) / 16 = a := by omega
    have r2 : (a % 4 * 16 + b / 16) % 16 * 16 + b % 16 * 4 / 4 = b := by omega
    simp only [b64EncodeBytes, b64DecodeChars, if_neg n3, if_true, e1, e2, e3, r1, r2]
  | a :: b :: c :: rest, h => by
    have ha : a < 256 := h a (by simp)
    have hb : b < 256 := h b (by simp)
    have hc : c < 256 := h c (by simp)
    have ih := b64DecodeChars_b64EncodeBytes rest (fun x hx => h x (by simp [hx]))
    have e1 := b64Index_b64Char (a / 4) (by omega)
    have e2 := b64Index_b64Char (a % 4 * 16 + b / 16) (by omega)
    have e3 := b64Index_b64Char (b % 16 * 4 + c / 64) (by omega)
    have e4 := b64Index_b64Char (c % 64) (by omega)
    have n3 := b64Char_ne_pad (b % 16 * 4 + c / 64) (by omega)
    have n4 := b64Char_ne_pad (c % 64) (by omega)
    have r1 : a / 4 * 4 + (a % 4 * 16 + b / 16) / 16 = a := by omega
    have r2 : (a % 4 * 16 + b / 16) % 16 * 16 + (b % 16 * 4 + c / 64) / 4 = b := by omega
    have r3 : (b % 16 * 4 + c / 64) % 4 * 64 + c % 64 = c := by omega
    simp only [b64EncodeBytes, b64DecodeChars, if_neg n3, if_neg n4, e1, e2, e3, e4, ih,
      r1, r2, r3]

/-! ## Helper lemmas: splitting at the last delimiter -/

theorem takeWhile_append_stop (p : Char → Bool) :
    ∀ (xs ys : List Char) (d : Char), (∀ a ∈ xs, p a = true) → p d = false →
      (xs ++ d :: ys).takeWhile p = xs
  | [], ys, d, _, hd => by simp [List.takeWhile, hd]
  | a :: t, ys, d, hxs, hd => by
    have ha : p a = true := hxs a (by simp)
    simp only [List.cons_append, List.takeWhile, ha]
    simpa using takeWhile_append_stop p t ys d (fun b hb => hxs b (by simp [hb])) hd

theorem dropWhile_append_stop (p : Char → Bool) :
    ∀ (xs ys : List Char) (d : Char), (∀ a ∈ xs, p a = true) → p d = false →
      (xs ++ d :: ys).dropWhile p = d :: ys
  | [], ys, d, _, hd => by simp [List.dropWhile, hd]
  | a :: t, ys, d, hxs, hd => by
    have ha : p a = true := hxs a (by simp)
    simp only [List.cons_append, List.dropWhile, ha]
    simpa using dropWhile_append_stop p t ys d (fun b hb => hxs b (by simp [hb])) hd

/-- The decoder reconstructs any pair whose components are `btoa`-encodable
(code points `< 256`) and whose id avoids the delimiter `'-'`. -/
theorem decode_encode (email assessmentId : String)
    (hemail : ∀ c ∈ email.data, c.toNat < 256)
    (hid : ∀ c ∈ assessmentId.data, c.toNat < 256)
    (hdash : '-' ∉ assessmentId.data) :
    decodeReviewerId (encodeReviewerId email assessmentId) = (email, assessmentId) := by
  have hbytes : ∀ b ∈ (email ++ "-" ++ assessmentId).data.map Char.toNat, b < 256 := by
    intro b hb
    simp only [List.mem_map, String.data_append] at hb
    obtain ⟨c, hc, rfl⟩ := hb
    rcases List.mem_append.mp hc with hc' | hc'
    · rcases List.mem_append.mp hc' with hc'' | hc''
      · exact hemail c hc''
      · simp only [List.mem_singleton] at hc''
        subst hc''
        decide
    · exact hid c hc'
  have hdec := b64DecodeChars_b64EncodeBytes _ hbytes
  unfold decodeReviewerId encodeReviewerId
  simp only [hdec, List.map_map]
  have hof : ∀ l : List Char, l.map (Char.ofNat ∘ Char.toNat) = l := by
    intro l
    induction l with
    | nil => rfl
    | cons c t iht => simp only [List.map_cons, Function.comp_apply, Char.ofNat_toNat, iht]
  rw [hof]
  have hchars : (email ++ "-" ++ assessmentId).data = email.data ++ '-' :: assessmentId.data := by
    simp [String.data_append]
  rw [hchars]
  have hrev : (email.data ++ '-' :: assessmentId.data).reverse
      = assessmentId.data.reverse ++ '-' :: email.data.reverse := by
    simp [List.reverse_append]
  rw [hrev]
  have hall : ∀ a ∈ assessmentId.data.reverse, (fun c => decide (c ≠ '-')) a = true := by
    intro a ha
    simp only [List.mem_reverse] at ha
    simp only [decide_eq_true_eq]
    intro h
    exact hdash (h ▸ ha)
  have hd : (fun c => decide (c ≠ '-')) '-' = false := by simp
  rw [takeWhile_append_stop _ _ _ _ hall hd, dropWhile_append_stop _ _ _ _ hall hd]
  simp

/-! ## Helper lemmas: substring search and trimming -/

theorem infixAt_of_middle : ∀ (s p t : List Char), infixAt (s ++ (p ++ t)) p = true
  | [], p, t => by
    have hpre : p.isPrefixOf (p ++ t) = true := by
      rw [List.isPrefixOf_iff_prefix]
      exact List.prefix_append p t
    unfold infixAt
    simp [hpre]
  | c :: s', p, t => by
    have ih := infixAt_of_middle s' p t
    simp only [List.cons_append]
    unfold infixAt
    simp [ih]

/-- `strIncludes` is complete for contiguous occurrences. -/
theorem strIncludes_of_isInfixData {s pat : String} (h : pat.data <:+: s.data) :
    strIncludes s pat = true := by
  obtain ⟨u, v, huv⟩ := h
  unfold strIncludes
  rw [← huv, List.append_assoc]
  exact infixAt_of_middle u pat.data v

/-- Every element of a joined list occurs contiguously in the join. -/
theorem isInfixData_jsJoin (sep : String) :
    ∀ (l : List String) (x : String), x ∈ l → x.data <:+: (jsJoin l sep).data
  | [], x, hx => by simp at hx
  | [a], x, hx => by
    simp only [List.mem_singleton] at hx
    subst hx
    exact List.infix_refl _
  | a :: b :: t, x, hx => by
    rcases List.mem_cons.mp hx with rfl | hmem
    · refine ⟨[], (sep ++ jsJoin (b :: t) sep).data, ?_⟩
      simp [jsJoin]
    · obtain ⟨u, v, huv⟩ := isInfixData_jsJoin sep (b :: t) x hmem
      refine ⟨a.data ++ sep.data ++ u, v, ?_⟩
      simp [jsJoin, huv]

theorem dropWhile_append_keep :
    ∀ (a b : List Char), (∃ c ∈ a, isJsWs c = false) →
      (a ++ b).dropWhile isJsWs = a.dropWhile isJsWs ++ b
  | [], _, h => by simp at h
  | c :: t, b, h => by
    cases hc : isJsWs c with
    | true =>
      obtain ⟨c', hc', hw⟩ := h
      rcases List.mem_cons.mp hc' with rfl | hmem
      · rw [hc] at hw
        cases hw
      · simp only [List.cons_append, List.dropWhile, hc]
        exact dropWhile_append_keep t b ⟨c', hmem, hw⟩
    | false =>
      simp only [List.cons_append, List.dropWhile, hc]
      rfl

/-- A chunk surrounded by material containing non-whitespace on both sides
survives `jsTrim` intact. -/
theorem isInfixData_jsTrim_middle (P M S : String)
    (hP : ∃ c ∈ P.data, isJsWs c = false) (hS : ∃ c ∈ S.data, isJsWs c = false) :
    M.data <:+: (jsTrim (P ++ M ++ S)).data := by
  unfold jsTrim
  have hdata : (P ++ M ++ S).data = P.data ++ (M.data ++ S.data) := by
    simp [List.append_assoc]
  rw [hdata, dropWhile_append_keep _ _ hP]
  have h2 : (P.data.dropWhile isJsWs ++ (M.data ++ S.data)).reverse
      = S.data.reverse ++ (P.data.dropWhile isJsWs ++ M.data).reverse := by
    simp [List.reverse_append, List.append_assoc]
  rw [h2]
  have hSrev : ∃ c ∈ S.data.reverse, isJsWs c = false := by
    obtain ⟨c, hc, hw⟩ := hS
    exact ⟨c, List.mem_reverse.mpr hc, hw⟩
  rw [dropWhile_append_keep _ _ hSrev]
  refine ⟨P.data.dropWhile isJsWs, (S.data.reverse.dropWhile isJsWs).reverse, ?_⟩
  simp [List.reverse_append, List.append_assoc]

/-! ## Helper lemmas: roster lookup -/

theorem jsIndexOfAux_of_not_mem :
    ∀ (l : List String) (x : String) (i : Nat), x ∉ l → jsIndexOfAux l x i = -1
  | [], _, _, _ => rfl
  | a :: t, x, i, h => by
    have hne : ¬ a = x := fun he => h (he ▸ List.mem_cons_self a t)
    simp only [jsIndexOfAux, if_neg hne]
    exact jsIndexOfAux_of_not_mem t x (i + 1) (fun hm => h (List.mem_cons_of_mem a hm))

/-- An email absent from the roster resolves to itself. -/
theorem lookupReviewerName_of_not_mem (request : FeedbackRequest) (email : String)
    (h : email ∉ request.reviewerEmails) :
    lookupReviewerName request email = email := by
  unfold lookupReviewerName jsIndexOf jsArrGet
  rw [jsIndexOfAux_of_not_mem _ _ _ h]
  norm_num

/-! ## The claims -/

/-- C1 (counterexample): the round trip fails on the code as claimed for
*all* printable pairs.  The encoder concatenates `email ++ "-" ++ id` before
base64, so the distinct pairs `("a-b", "c")` and `("a", "b-c")` produce the
very same token, and the decoder maps that token to `("a-b", "c")`, not to
`("a", "b-c")`.  Hence no decoder whatsoever can satisfy the claim. -/
theorem c1_roundtrip_counterexample :
    encodeReviewerId "a-b" "c" = encodeReviewerId "a" "b-c" ∧
    decodeReviewerId (encodeReviewerId "a" "b-c") ≠ ("a", "b-c") := by
  constructor
  · rfl
  · decide

/-- C1 (amended): for every pair of `btoa`-encodable texts (all code points
`< 256`) whose assessment id does not contain the encoder's delimiter `'-'`
— in particular the purely numeric ids the application generates, and
emails containing `'+'`, `'.'` or even `'-'` — decoding the token produced
by `encode` reconstructs exactly the original pair. -/
theorem c1_roundtrip_delimiter_free (email assessmentId : String)
    (hemail : ∀ c ∈ email.data, c.toNat < 256)
    (hid : ∀ c ∈ assessmentId.data, c.toNat < 256)
    (hdash : '-' ∉ assessmentId.data) :
    decodeReviewerId (encodeReviewerId email assessmentId) = (email, assessmentId) :=
  decode_encode email assessmentId hemail hid hdash

theorem c1_roundtrip_witness :
    decodeReviewerId (encodeReviewerId "a+b.c-d@x.com" "12345") = ("a+b.c-d@x.com", "12345") :=
  c1_roundtrip_delimiter_free "a+b.c-d@x.com" "12345" (by decide) (by decide) (by decide)

/-- C2: for every valid creation input (non-blank candidate name and role,
at least one parsed reviewer) with `btoa`-encodable reviewer emails and a
delimiter-free assessment id (the application's ids are decimal strings),
`createStep` selects a new aggregate whose `formLinks` are in 1:1 positional
correspondence with the parsed reviewers: same length, the link at position
`k` carries reviewer `k`'s email both inside the token and in cleartext,
and the embedded token decodes back to that email and the new id. -/
theorem c2_create_formLinks (requests : List FeedbackRequest)
    (candidateName candidateRole reviewerData assessmentId createdAt origin : String)
    (payload : AgentPayload)
    (h1 : jsTrim candidateName ≠ "") (h2 : jsTrim candidateRole ≠ "")
    (h3 : jsTrim reviewerData ≠ "") (h4 : parseReviewers reviewerData ≠ [])
    (hem : ∀ r ∈ parseReviewers reviewerData, ∀ c ∈ r.email.data, c.toNat < 256)
    (hid : ∀ c ∈ assessmentId.data, c.toNat < 256) (hdash : '-' ∉ assessmentId.data) :
    ∃ req, (createStep requests candidateName candidateRole reviewerData
        (Except.ok payload) assessmentId createdAt origin).selected = some req ∧
      req.id = assessmentId ∧
      req.formLinks.length = (parseReviewers reviewerData).length ∧
      ∀ k, k < req.formLinks.length →
        (req.formLinks.getD k default).email
            = ((parseReviewers reviewerData).getD k default).email ∧
        (req.formLinks.getD k default).link
            = origin ++ "?reviewerId=" ++
              encodeReviewerId ((parseReviewers reviewerData).getD k default).email
                assessmentId ++
              "&email=" ++ ((parseReviewers reviewerData).getD k default).email ++
              "&assessmentId=" ++ assessmentId ∧
        decodeReviewerId (encodeReviewerId
              ((parseReviewers reviewerData).getD k default).email assessmentId)
            = (((parseReviewers reviewerData).getD k default).email, assessmentId) := by
  have hcond : ¬ (jsTrim candidateName = "" ∨ jsTrim candidateRole = "" ∨
      jsTrim reviewerData = "") := by
    push_neg
    exact ⟨h1, h2, h3⟩
  have hne : ¬ ((parseReviewers reviewerData).isEmpty = true) := by
    intro h
    exact h4 (List.isEmpty_iff.mp h)
  unfold createStep
  rw [if_neg hcond, if_neg hne]
  refine ⟨_, rfl, rfl, ?_, ?_⟩
  · simp [mkFormLinks]
  · intro k hk
    have hk' : k < (parseReviewers reviewerData).length := by
      simpa [mkFormLinks] using hk
    have hmem : (parseReviewers reviewerData)[k] ∈ parseReviewers reviewerData :=
      List.getElem_mem hk'
    have hklinks : k < (mkFormLinks (parseReviewers reviewerData) assessmentId origin).length := by
      simpa [mkFormLinks] using hk'
    have hgl : (mkFormLinks (parseReviewers reviewerData) assessmentId origin).getD k default
        = (mkFormLinks (parseReviewers reviewerData) assessmentId origin)[k] :=
      List.getD_eq_getElem _ _ hklinks
    have hgr : (parseReviewers reviewerData).getD k default
        = (parseReviewers reviewerData)[k] :=
      List.getD_eq_getElem _ _ hk'
    refine ⟨?_, ?_, ?_⟩
    · rw [hgl, hgr]
      simp [mkFormLinks]
    · rw [hgl, hgr]
      simp [mkFormLinks]
    · rw [hgr]
      exact decode_encode _ _ (hem _ hmem) hid hdash

theorem c2_create_formLinks_witness :
    ∃ req, (createStep [] "Sarah Johnson" "Eng Manager" "John|john@x.com"
        (Except.ok {}) "1760000000000" "2026-10-11T00:00:00.000Z"
        "https://app.example").selected = some req ∧
      req.id = "1760000000000" ∧
      req.formLinks.length = (parseReviewers "John|john@x.com").length ∧
      ∀ k, k < req.formLinks.length →
        (req.formLinks.getD k default).email
            = ((parseReviewers "John|john@x.com").getD k default).email ∧
        (req.formLinks.getD k default).link
            = "https://app.example" ++ "?reviewerId=" ++
              encodeReviewerId ((parseReviewers "John|john@x.com").getD k default).email
                "1760000000000" ++
              "&email=" ++ ((parseReviewers "John|john@x.com").getD k default).email ++
              "&assessmentId=" ++ "1760000000000" ∧
        decodeReviewerId (encodeReviewerId
              ((parseReviewers "John|john@x.com").getD k default).email "1760000000000")
            = (((parseReviewers "John|john@x.com").getD k default).email, "1760000000000") :=
  c2_create_formLinks [] "Sarah Johnson" "Eng Manager" "John|john@x.com" "1760000000000"
    "2026-10-11T00:00:00.000Z" "https://app.example" {} (by decide) (by decide) (by decide)
    (by decide) (by decide) (by decide) (by decide)

/-- C3 (counterexample): the code performs no roster check at all.  A
submission whose reviewer email (`mallory@evil.com`) is not on the roster is
not rejected: it is appended to the aggregate's responses, no error is set,
and the success message is issued. -/
theorem c3_unknown_reviewer_counterexample :
    "mallory@evil.com" ∉ rosterRequest.reviewerEmails ∧
    outsiderSubmission.reviewerEmail = "mallory@evil.com" ∧
    (handleFeedbackSubmitStep [rosterRequest] (some rosterRequest) outsiderSubmission
        (Except.ok ())).selected
      = some (appendSubmission rosterRequest outsiderSubmission) ∧
    (appendSubmission rosterRequest outsiderSubmission).responses.length
      = rosterRequest.responses.length + 1 ∧
    (handleFeedbackSubmitStep [rosterRequest] (some rosterRequest) outsiderSubmission
        (Except.ok ())).error = none := by
  refine ⟨by decide, by decide, rfl, by decide, rfl⟩

/-- C3 (amended): a feedback submission whose reviewer email is not found in
the owning assessment's roster is *not* rejected: no `UnknownReviewer` error
exists in the code.  The submission record is built with the reviewer name
falling back to the submitted email, and the submission is appended to the
aggregate's responses exactly like any rostered submission. -/
theorem c3_unknown_reviewer_appended (requests : List FeedbackRequest)
    (sel : FeedbackRequest) (email ts : String) (sc : Scores) (tx : TextResponses)
    (ag : Except String Unit) (h : email ∉ sel.reviewerEmails) :
    (mkSubmission sel email ts sc tx).reviewerName = email ∧
    (handleFeedbackSubmitStep requests (some sel) (mkSubmission sel email ts sc tx)
        ag).selected
      = some (appendSubmission sel (mkSubmission sel email ts sc tx)) ∧
    (appendSubmission sel (mkSubmission sel email ts sc tx)).responses
      = sel.responses ++ [mkSubmission sel email ts sc tx] := by
  refine ⟨lookupReviewerName_of_not_mem sel email h, ?_, rfl⟩
  cases ag <;> rfl

theorem c3_unknown_reviewer_appended_witness :
    (mkSubmission rosterRequest "mallory@evil.com" "2026-01-02T00:00:00.000Z" scoresAll4
        textsEmpty).reviewerName = "mallory@evil.com" ∧
    (handleFeedbackSubmitStep [rosterRequest] (some rosterRequest)
        (mkSubmission rosterRequest "mallory@evil.com" "2026-01-02T00:00:00.000Z" scoresAll4
          textsEmpty) (Except.ok ())).selected
      = some (appendSubmission rosterRequest
          (mkSubmission rosterRequest "mallory@evil.com" "2026-01-02T00:00:00.000Z" scoresAll4
            textsEmpty)) ∧
    (appendSubmission rosterRequest
        (mkSubmission rosterRequest "mallory@evil.com" "2026-01-02T00:00:00.000Z" scoresAll4
          textsEmpty)).responses
      = rosterRequest.responses ++
          [mkSubmission rosterRequest "mallory@evil.com" "2026-01-02T00:00:00.000Z" scoresAll4
            textsEmpty] :=
  c3_unknown_reviewer_appended [rosterRequest] rosterRequest "mallory@evil.com"
    "2026-01-02T00:00:00.000Z" scoresAll4 textsEmpty (Except.ok ()) (by decide)

/-- C4: `appendSubmission` is a pure functional update: the returned
aggregate's `responses` are the input's extended by exactly the one new
element, and every other field (`id`, `candidateName`, `candidateRole`,
`reviewerEmails`, `reviewerNames`, `formLinks`, `status`, `feedback`,
`createdAt`) is equal to the input's.  (Purity of the input value itself is
inherent to the embedding: the source constructs a fresh object with
spread syntax and never mutates the original.) -/
theorem c4_appendSubmission_pure (a : FeedbackRequest) (s : FeedbackSubmission) :
    (appendSubmission a s).responses.length = a.responses.length + 1 ∧
    (appendSubmission a s).responses = a.responses ++ [s] ∧
    (appendSubmission a s).id = a.id ∧
    (appendSubmission a s).candidateName = a.candidateName ∧
    (appendSubmission a s).candidateRole = a.candidateRole ∧
    (appendSubmission a s).reviewerEmails = a.reviewerEmails ∧
    (appendSubmission a s).reviewerNames = a.reviewerNames ∧
    (appendSubmission a s).formLinks = a.formLinks ∧
    (appendSubmission a s).status = a.status ∧
    (appendSubmission a s).feedback = a.feedback ∧
    (appendSubmission a s).createdAt = a.createdAt := by
  refine ⟨?_, rfl, rfl, rfl, rfl, rfl, rfl, rfl, rfl, rfl, rfl⟩
  simp [appendSubmission]

/-- C5: `getRecommendationColor` realises exactly the spec's ordered,
case-insensitive, first-match substring classification
(`classifyRecommendation`), composed with the fixed class-to-color table;
in particular `"Strong Hire"` classifies as strong-positive, not positive. -/
theorem c5_recommendation_classification :
    (∀ r : Option String,
      getRecommendationColor r = recClassColor (classifyRecommendation r)) ∧
    classifyRecommendation (some "Strong Hire") = RecClass.strongPositive ∧
    getRecommendationColor (some "Strong Hire") = recClassColor RecClass.strongPositive := by
  refine ⟨?_, by decide, by decide⟩
  intro r
  cases r with
  | none => rfl
  | some s =>
    simp only [getRecommendationColor, classifyRecommendation, Option.getD_some]
    by_cases h1 : strIncludes (jsToLower s) "strong hire" = true
    · simp [h1, recClassColor]
    · by_cases h2 : strIncludes (jsToLower s) "hire" = true
      · simp [h1, h2, recClassColor]
      · by_cases h3 : strIncludes (jsToLower s) "consider" = true
        · simp [h1, h2, h3, recClassColor]
        · by_cases h4 : strIncludes (jsToLower s) "caution" = true
          · simp [h1, h2, h3, h4, recClassColor]
          · by_cases h5 : strIncludes (jsToLower s) "do not" = true
            · simp [h1, h2, h3, h4, h5, recClassColor]
            · simp [h1, h2, h3, h4, h5, recClassColor]

/-- C6: for any externally supplied `overall_score` in `[0, 5]`, both the
summary view and the exported report render the percentage
`round(overall_score * 20)`; an absent `overall_score` renders as `0`; and
concretely `3.5` renders as `"70%"` while the absent score renders `"0%"`. -/
theorem c6_overall_percentage (s : FeedbackSummary) (q : ℚ) :
    (s.overall_score = some q → 0 ≤ q → q ≤ 5 →
      summaryOverallPct s = round (q * 20) ∧
      pdfOverallPct s = round (q * 20) ∧
      summaryOverallPctText s = toString (round (q * 20)) ++ "%") ∧
    (s.overall_score = none →
      summaryOverallPct s = 0 ∧ pdfOverallPct s = 0 ∧ summaryOverallPctText s = "0%") ∧
    summaryOverallPctText scoreSummary = "70%" ∧
    summaryOverallPctText emptySummary = "0%" := by
  have h70 : summaryOverallPct scoreSummary = 70 := by
    unfold summaryOverallPct summaryOverallScore jsNumOr0 jsToFixed0 scoreSummary
    norm_num
  have h0 : summaryOverallPct emptySummary = 0 := by
    unfold summaryOverallPct summaryOverallScore jsNumOr0 jsToFixed0 emptySummary
    norm_num
  refine ⟨?_, ?_, by rw [summaryOverallPctText, h70]; rfl,
    by rw [summaryOverallPctText, h0]; rfl⟩
  · intro h _ _
    have hs : summaryOverallPct s = round (q * 20) := by
      unfold summaryOverallPct summaryOverallScore jsNumOr0 jsToFixed0
      rw [h, Option.getD_some, round_eq]
    have hp : pdfOverallPct s = round (q * 20) := by
      unfold pdfOverallPct jsNumOr0 jsToFixed0
      rw [h, Option.getD_some, round_eq]
    exact ⟨hs, hp, by rw [summaryOverallPctText, hs]⟩
  · intro h
    have hs : summaryOverallPct s = 0 := by
      unfold summaryOverallPct summaryOverallScore jsNumOr0 jsToFixed0
      rw [h, Option.getD_none]
      norm_num
    have hp : pdfOverallPct s = 0 := by
      unfold pdfOverallPct jsNumOr0 jsToFixed0
      rw [h, Option.getD_none]
      norm_num
    exact ⟨hs, hp, by rw [summaryOverallPctText, hs]; rfl⟩

theorem c6_overall_percentage_witness :
    (summaryOverallPct scoreSummary = round ((7 / 2 : ℚ) * 20) ∧
     pdfOverallPct scoreSummary = round ((7 / 2 : ℚ) * 20) ∧
     summaryOverallPctText scoreSummary = toString (round ((7 / 2 : ℚ) * 20)) ++ "%") ∧
    (summaryOverallPct emptySummary = 0 ∧ pdfOverallPct emptySummary = 0 ∧
     summaryOverallPctText emptySummary = "0%") :=
  ⟨(c6_overall_percentage scoreSummary (7 / 2)).1 rfl (by norm_num) (by norm_num),
   (c6_overall_percentage emptySummary (7 / 2)).2.1 rfl⟩

set_option maxRecDepth 16000 in
/-- C7 (counterexample): a missing summary field does *not* render as empty
or zero everywhere.  In the exported report the template literal
interpolates the absent `recommendation` as the literal text `undefined`:
the report of an assessment whose payload has no summary contains the line
`Recommendation: undefined`, which is not the empty rendering. -/
theorem c7_missing_fields_counterexample :
    pdfRecommendationLine emptySummary = "Recommendation: undefined" ∧
    strIncludes (generatePDFContent (fun d => d) emptyFeedbackRequest)
        "Recommendation: undefined" = true ∧
    ("Recommendation: undefined" : String) ≠ "Recommendation: " := by
  have e1 : pdfOverallPct emptySummary = 0 := by
    unfold pdfOverallPct jsNumOr0 jsToFixed0 emptySummary
    norm_num
  have hpdf : generatePDFContent (fun d => d) emptyFeedbackRequest =
      "FEEDBACK ASSESSMENT REPORT\n==========================\n\nCandidate: Sarah Johnson\nPosition: Eng Manager\nAssessment Date: 2026-01-01T00:00:00.000Z\n\nOVERALL SCORE\n=============\nOverall Score: 0%\nTotal Responses: 0\nCompletion: 0%\n\nRECOMMENDATION\n==============\nRecommendation: undefined\nRationale: undefined\n\nKEY STRENGTHS\n=============\n\n\nKEY CONCERNS\n============\n\n\nCRITERION BREAKDOWN\n===================\n\n\nCONSENSUS AREAS\n===============\nStrong Agreement: undefined\nAreas of Disagreement: undefined\n\nEXECUTIVE SUMMARY\n=================\nundefined" := by
    unfold generatePDFContent pdfPre
    rw [show requestSummary emptyFeedbackRequest = emptySummary from rfl]
    simp only [e1]
    rfl
  refine ⟨rfl, ?_, by decide⟩
  rw [hpdf]
  decide

/-- C7 (amended): rendering of missing fields never raises an error (all
render functions are total), and defaults are as follows.  Each of the five
fixed criteria missing from the criterion breakdown renders with
`{score := 0, feedback := ""}`.  In the summary view, missing
recommendation and rationale render empty and missing strengths/concerns
render as empty lists.  In the exported report missing strengths/concerns
render as empty sections, but the missing free-text fields (recommendation,
rationale, consensus areas, executive summary) render as the literal text
`undefined` rather than as empty text. -/
theorem c7_missing_fields_render (s : FeedbackSummary) (key : String)
    (hkey : key ∈ criteriaList.map Prod.fst)
    (hk : (s.criterion_breakdown.getD []).lookup key = none)
    (h1 : s.recommendation = none) (h2 : s.recommendation_rationale = none)
    (h3 : s.key_strengths = none) (h4 : s.key_concerns = none)
    (h5 : s.consensus_areas = none) (h6 : s.executive_summary = none) :
    summaryCriterionData s key = ⟨0, ""⟩ ∧
    summaryRecommendationText s = "" ∧
    summaryRationaleText s = "" ∧
    summaryStrengthsDisplayed s = [] ∧
    summaryConcernsDisplayed s = [] ∧
    pdfStrengthsSection s = "" ∧
    pdfConcernsSection s = "" ∧
    pdfRecommendationLine s = "Recommendation: undefined" ∧
    pdfRationaleLine s = "Rationale: undefined" ∧
    pdfConsensusStrongLine s = "Strong Agreement: undefined" ∧
    pdfDisagreementLine s = "Areas of Disagreement: undefined" ∧
    pdfExecSection s = "undefined" := by
  refine ⟨?_, ?_, ?_, ?_, ?_, ?_, ?_, ?_, ?_, ?_, ?_, ?_⟩
  · simp [summaryCriterionData, hk]
  · simp [summaryRecommendationText, reactRender, h1]
  · simp [summaryRationaleText, reactRender, h2]
  · simp [summaryStrengthsDisplayed, h3]
  · simp [summaryConcernsDisplayed, h4]
  · simp [pdfStrengthsSection, h3, jsJoin]
  · simp [pdfConcernsSection, h4, jsJoin]
  · simp only [pdfRecommendationLine, h1]
    rfl
  · simp only [pdfRationaleLine, h2]
    rfl
  · simp only [pdfConsensusStrongLine, h5]
    rfl
  · simp only [pdfDisagreementLine, h5]
    rfl
  · simp only [pdfExecSection, h6]
    rfl

theorem c7_missing_fields_render_witness :
    summaryCriterionData emptySummary "leadership_vision" = ⟨0, ""⟩ ∧
    summaryRecommendationText emptySummary = "" ∧
    summaryRationaleText emptySummary = "" ∧
    summaryStrengthsDisplayed emptySummary = [] ∧
    summaryConcernsDisplayed emptySummary = [] ∧
    pdfStrengthsSection emptySummary = "" ∧
    pdfConcernsSection emptySummary = "" ∧
    pdfRecommendationLine emptySummary = "Recommendation: undefined" ∧
    pdfRationaleLine emptySummary = "Rationale: undefined" ∧
    pdfConsensusStrongLine emptySummary = "Strong Agreement: undefined" ∧
    pdfDisagreementLine emptySummary = "Areas of Disagreement: undefined" ∧
    pdfExecSection emptySummary = "undefined" :=
  c7_missing_fields_render emptySummary "leadership_vision" (by decide) rfl rfl rfl rfl rfl
    rfl rfl

/-- C8: a creation request with an empty candidate name, an empty role, or
no parseable reviewer (none with `'@'`) fails validation: an inline error
message is set, no new aggregate is selected or appended (the request list
is returned unchanged), and the agent is never called. -/
theorem c8_validation_aborts (requests : List FeedbackRequest)
    (candidateName candidateRole reviewerData : String)
    (agentResult : Except String AgentPayload) (assessmentId createdAt origin : String)
    (h : candidateName = "" ∨ candidateRole = "" ∨ parseReviewers reviewerData = []) :
    (createStep requests candidateName candidateRole reviewerData agentResult
        assessmentId createdAt origin).requests = requests ∧
    (createStep requests candidateName candidateRole reviewerData agentResult
        assessmentId createdAt origin).selected = none ∧
    (createStep requests candidateName candidateRole reviewerData agentResult
        assessmentId createdAt origin).error.isSome = true ∧
    (createStep requests candidateName candidateRole reviewerData agentResult
        assessmentId createdAt origin).agentCalled = false := by
  unfold createStep
  by_cases hc : jsTrim candidateName = "" ∨ jsTrim candidateRole = "" ∨
      jsTrim reviewerData = ""
  · rw [if_pos hc]
    exact ⟨rfl, rfl, rfl, rfl⟩
  · have hpe : parseReviewers reviewerData = [] := by
      push_neg at hc
      rcases h with h | h | h
      · exact absurd (by rw [h]; rfl) hc.1
      · exact absurd (by rw [h]; rfl) hc.2.1
      · exact h
    rw [if_neg hc, if_pos (show (parseReviewers reviewerData).isEmpty = true by
      rw [hpe]; rfl)]
    exact ⟨rfl, rfl, rfl, rfl⟩

theorem c8_validation_aborts_witness :
    (createStep [] "" "Eng Manager" "John|john@x.com" (Except.ok {})
        "1760000000000" "2026-10-11" "https://app.example").requests = [] ∧
    (createStep [] "" "Eng Manager" "John|john@x.com" (Except.ok {})
        "1760000000000" "2026-10-11" "https://app.example").selected = none ∧
    (createStep [] "" "Eng Manager" "John|john@x.com" (Except.ok {})
        "1760000000000" "2026-10-11" "https://app.example").error.isSome = true ∧
    (createStep [] "" "Eng Manager" "John|john@x.com" (Except.ok {})
        "1760000000000" "2026-10-11" "https://app.example").agentCalled = false :=
  c8_validation_aborts [] "" "Eng Manager" "John|john@x.com" (Except.ok {})
    "1760000000000" "2026-10-11" "https://app.example" (Or.inl rfl)

/-- C9: the submission append and the success state are applied before the
follow-up agent notification is awaited, so a failing notification leaves
the appended submission (and the success message) in place — the error path
performs no rollback, it only records the error message. -/
theorem c9_agent_failure_keeps_append (requests : List FeedbackRequest)
    (sel : FeedbackRequest) (submission : FeedbackSubmission) (msg : String) :
    (handleFeedbackSubmitStep requests (some sel) submission (Except.error msg)).requests
      = (handleFeedbackSubmitStep requests (some sel) submission (Except.ok ())).requests ∧
    (handleFeedbackSubmitStep requests (some sel) submission (Except.error msg)).selected
      = some (appendSubmission sel submission) ∧
    (handleFeedbackSubmitStep requests (some sel) submission (Except.error msg)).success
      = some "Thank you! Your feedback has been submitted." ∧
    (handleFeedbackSubmitStep requests (some sel) submission (Except.error msg)).error
      = some (if msg = "" then "Failed to submit feedback" else msg) :=
  ⟨rfl, rfl, rfl, rfl⟩

/-- C10: the summary view displays at most the first three strengths and at
most the first three concerns, in original order (the displayed lists are
length-≤-3 prefixes of the full lists), while the exported report contains
every entry of both lists (each entry occurs, as a bullet line, inside the
generated report text). -/
theorem c10_display_slice_export_full (s : FeedbackSummary) (req : FeedbackRequest)
    (fmtDate : String → String) (x y : String)
    (hreq : requestSummary req = s)
    (hx : x ∈ s.key_strengths.getD []) (hy : y ∈ s.key_concerns.getD []) :
    (summaryStrengthsDisplayed s).length ≤ 3 ∧
    (summaryConcernsDisplayed s).length ≤ 3 ∧
    summaryStrengthsDisplayed s <+: s.key_strengths.getD [] ∧
    summaryConcernsDisplayed s <+: s.key_concerns.getD [] ∧
    strIncludes (generatePDFContent fmtDate req) ("• " ++ x) = true ∧
    strIncludes (generatePDFContent fmtDate req) ("• " ++ y) = true := by
  have hFpre : 'F' ∈ (pdfPre fmtDate req s).data := by
    unfold pdfPre
    rw [String.data_append]
    exact List.mem_append_left _ (by decide)
  have hCpost : 'C' ∈ (pdfPost s).data := by
    unfold pdfPost
    rw [String.data_append]
    exact List.mem_append_left _ (by decide)
  refine ⟨?_, ?_, ?_, ?_, ?_, ?_⟩
  · simp only [summaryStrengthsDisplayed, List.length_take]
    omega
  · simp only [summaryConcernsDisplayed, List.length_take]
    omega
  · exact List.take_prefix 3 _
  · exact List.take_prefix 3 _
  · have hM : ("• " ++ x).data <:+: (pdfStrengthsSection s).data := by
      unfold pdfStrengthsSection
      exact isInfixData_jsJoin "\n" _ _ (List.mem_map_of_mem _ hx)
    have hS1 : ∃ c ∈ (pdfMid ++ (pdfConcernsSection s ++ pdfPost s)).data,
        isJsWs c = false := by
      refine ⟨'K', ?_, by decide⟩
      rw [String.data_append]
      exact List.mem_append_left _ (by decide)
    have hmid := isInfixData_jsTrim_middle (pdfPre fmtDate req s) (pdfStrengthsSection s)
      (pdfMid ++ (pdfConcernsSection s ++ pdfPost s)) ⟨'F', hFpre, by decide⟩ hS1
    have hgen : generatePDFContent fmtDate req
        = jsTrim (pdfPre fmtDate req s ++ pdfStrengthsSection s ++
            (pdfMid ++ (pdfConcernsSection s ++ pdfPost s))) := by
      simp only [generatePDFContent, hreq]
      congr 1
      simp [String.append_assoc]
    rw [hgen]
    exact strIncludes_of_isInfixData (hM.trans hmid)
  · have hM : ("• " ++ y).data <:+: (pdfConcernsSection s).data := by
      unfold pdfConcernsSection
      exact isInfixData_jsJoin "\n" _ _ (List.mem_map_of_mem _ hy)
    have hP2 : ∃ c ∈ (pdfPre fmtDate req s ++ (pdfStrengthsSection s ++ pdfMid)).data,
        isJsWs c = false := by
      refine ⟨'F', ?_, by decide⟩
      rw [String.data_append]
      exact List.mem_append_left _ hFpre
    have hmid := isInfixData_jsTrim_middle
      (pdfPre fmtDate req s ++ (pdfStrengthsSection s ++ pdfMid)) (pdfConcernsSection s)
      (pdfPost s) hP2 ⟨'C', hCpost, by decide⟩
    have hgen : generatePDFContent fmtDate req
        = jsTrim (pdfPre fmtDate req s ++ (pdfStrengthsSection s ++ pdfMid) ++
            pdfConcernsSection s ++ pdfPost s) := by
      simp only [generatePDFContent, hreq]
      congr 1
      simp [String.append_assoc]
    rw [hgen]
    exact strIncludes_of_isInfixData (hM.trans hmid)

theorem c10_display_slice_export_full_witness :
    (summaryStrengthsDisplayed listsSummary).length ≤ 3 ∧
    (summaryConcernsDisplayed listsSummary).length ≤ 3 ∧
    summaryStrengthsDisplayed listsSummary <+: listsSummary.key_strengths.getD [] ∧
    summaryConcernsDisplayed listsSummary <+: listsSummary.key_concerns.getD [] ∧
    strIncludes (generatePDFContent (fun d => d) listsFeedbackRequest)
        ("• " ++ "Leads with clarity") = true ∧
    strIncludes (generatePDFContent (fun d => d) listsFeedbackRequest)
        ("• " ++ "Limited delegation") = true :=
  c10_display_slice_export_full listsSummary listsFeedbackRequest (fun d => d)
    "Leads with clarity" "Limited delegation" rfl (by decide) (by decide)
